import Mathlib

/-
Verification development for the order-management / cash-flow backend.

The JavaScript sources are shallowly embedded as pure Lean functions over an
explicit store.  Conventions:
  * JS numbers (prices, quantities, amounts) are embedded as `Rat`.
  * Dates are embedded as `Int` day stamps; all window comparisons in the
    source are inclusive on both ends, matching the Mongo queries.
  * Mongo collections are lists of documents; `findById` / `findOne` is
    `List.find?`, a conditional `findOneAndUpdate` updates the first match.
  * Fallible request handlers return an explicit result type; the HTTP code
    of each result is given by a separate function.
  * Document ids are abstract strings (ObjectId cast errors are out of scope).
-/

namespace Shop

/-- Product document, from src/models (name collapsed to one string; the
localized sub-fields and the category reference play no role in the claims). -/
structure Product where
  id : String
  name : String
  stockQuantity : Rat
  price : Rat
deriving DecidableEq, Repr

/-- One line of an order request, src/models/order.js ProductSchema.  The raw
request may omit either field, hence the `Option`s; `none` models a missing or
null JS value. -/
structure OrderLine where
  productId : Option String
  quantity : Option Rat
deriving DecidableEq, Repr

/-- Order document, src/models/order.js OrderSchema. -/
structure Order where
  id : String
  user : String
  products : List OrderLine
  paymentMethod : String
  status : String
  totalPrice : Rat
  orderDate : Int
deriving DecidableEq, Repr

/-- Modelled from the spec: the CashFlowTransaction document.  Its model file
is not part of the repository slice; fields follow spec section 3 and every use
in src/controllers/cashFlowController.js: type (inflow/outflow), free-form
category, numeric amount, description, date, optional orderId back-reference,
and the `automated` flag. -/
structure CashFlowTransaction where
  type : String
  category : String
  amount : Rat
  description : String
  date : Int
  orderId : Option String
  automated : Bool
deriving DecidableEq, Repr

/-- The document store: one list per collection used by the claims. -/
structure Store where
  products : List Product
  orders : List Order
  transactions : List CashFlowTransaction
deriving DecidableEq, Repr

/-- Authenticated caller identity, as provided by the auth middleware
(req.user.id, req.user.role). -/
structure Caller where
  id : String
  role : String
deriving DecidableEq, Repr

/-- Body of a createOrder request (src/controllers/orderController.js:31).
`none` models a missing field. -/
structure CreateOrderRequest where
  products : Option (List OrderLine)
  paymentMethod : Option String
  status : Option String
  totalPrice : Option Rat
deriving DecidableEq, Repr

/-- JS falsiness of an optional string: undefined/null or the empty string. -/
def optStrFalsy : Option String → Bool
  | none => true
  | some st => st == ""

/-- JS falsiness of an optional number: undefined/null or zero. -/
def optRatFalsy : Option Rat → Bool
  | none => true
  | some q => q == 0

/-- The guard `!products || !paymentMethod || !totalPrice`
(orderController.js:37).  An array is always truthy in JS, so a present but
empty products list passes this check. -/
def topFieldsMissing (req : CreateOrderRequest) : Bool :=
  req.products.isNone || optStrFalsy req.paymentMethod || optRatFalsy req.totalPrice

/-- Product.findById (abstract ids, first match). -/
def findProduct (ps : List Product) (pid : String) : Option Product :=
  ps.find? (fun p => p.id == pid)

/-- Product.findOneAndUpdate({_id: pid, stockQuantity: {$gte: qty}},
{$inc: {stockQuantity: -qty}}) (orderController.js:63): decrement the first
document matching both conditions, `none` when no document matches. -/
def condDecrement : List Product → String → Rat → Option (List Product)
  | [], _, _ => none
  | p :: rest, pid, qty =>
    if p.id == pid ∧ qty ≤ p.stockQuantity then
      some ({ p with stockQuantity := p.stockQuantity - qty } :: rest)
    else
      (condDecrement rest pid qty).map (p :: ·)

/-- Outcomes of createOrder, one constructor per distinct response of
orderController.js:29-91. -/
inductive CreateOrderResult where
  | created (o : Order)
  | missingFields
  | invalidLine
  | productNotFound (pid : String)
  | insufficientStock (pid : String)
  | conflict
  | serverError
deriving DecidableEq, Repr

/-- HTTP status code of each createOrder outcome. -/
def httpStatus : CreateOrderResult → Nat
  | .created _ => 201
  | .missingFields => 400
  | .invalidLine => 400
  | .productNotFound _ => 400
  | .insufficientStock _ => 400
  | .conflict => 409
  | .serverError => 500

/-- Discriminator for the insufficient-stock response. -/
def CreateOrderResult.isInsufficientStock : CreateOrderResult → Bool
  | .insufficientStock _ => true
  | _ => false

/-- The validation pass over all lines before any mutation
(orderController.js:46-59): per line, reject a falsy productId or a
non-positive or non-numeric quantity, then resolve the product, then compare the
requested quantity against current stock.  Returns the first failure. -/
def preCheckLoop (ps : List Product) : List OrderLine → Option CreateOrderResult
  | [] => none
  | l :: rest =>
    match l.productId, l.quantity with
    | some pid, some q =>
      if pid = "" ∨ q ≤ 0 then some .invalidLine
      else
        match findProduct ps pid with
        | none => some (.productNotFound pid)
        | some p =>
          if p.stockQuantity < q then some (.insufficientStock pid)
          else preCheckLoop ps rest
    | _, _ => some .invalidLine

/-- The commit pass (orderController.js:62-73): conditional decrement per line;
on the first line whose conditional write matches no document, stop with the
store as already mutated (`Except.error`).  A line missing its fields matches
no document either. -/
def commitLoop : List Product → List OrderLine → Except (List Product) (List Product)
  | ps, [] => .ok ps
  | ps, l :: rest =>
    match l.productId, l.quantity with
    | some pid, some q =>
      match condDecrement ps pid q with
      | some ps' => commitLoop ps' rest
      | none => .error ps
    | _, _ => .error ps

/-- Payment methods accepted by the order schema (src/models/order.js:29). -/
def paymentMethodEnum : List String := ["cash", "credit_card", "paypal"]

/-- Status values accepted by the order schema (src/models/order.js:40).
Note "completed" is not among them. -/
def orderStatusEnum : List String := ["pending", "processing", "shipped", "delivered"]

/-- Schema validation of one embedded line on save (src/models/order.js:5-16):
productId required, quantity required with min 1. -/
def lineSchemaValid (l : OrderLine) : Bool :=
  l.productId.isSome &&
    (match l.quantity with
     | some q => decide (1 ≤ q)
     | none => false)

/-- Schema validation run by order.save() (src/models/order.js): enum checks
for paymentMethod and status plus per-line validation.  A failing save throws,
which the controller turns into a 500. -/
def orderSchemaValid (o : Order) : Bool :=
  paymentMethodEnum.contains o.paymentMethod &&
  orderStatusEnum.contains o.status &&
  o.products.all lineSchemaValid

/-- createOrder (orderController.js:29-91).  `userId` is req.user.id, `newId`
the identity the store assigns to the new order, `now` the creation date. -/
def createOrder (req : CreateOrderRequest) (userId newId : String) (now : Int)
    (s : Store) : CreateOrderResult × Store :=
  if topFieldsMissing req then
    (.missingFields, s)
  else
    let lines := req.products.getD []
    match preCheckLoop s.products lines with
    | some err => (err, s)
    | none =>
      match commitLoop s.products lines with
      | .error psAfter => (.conflict, { s with products := psAfter })
      | .ok psAfter =>
        let o : Order :=
          { id := newId, user := userId, products := lines,
            paymentMethod := req.paymentMethod.getD "",
            status := match req.status with
                      | some st => if st = "" then "processing" else st
                      | none => "processing",
            totalPrice := req.totalPrice.getD 0,
            orderDate := now }
        if orderSchemaValid o then
          (.created o, { s with products := psAfter, orders := s.orders ++ [o] })
        else
          (.serverError, { s with products := psAfter })

/-- generateTransactionFromOrder (cashFlowController.js:415-466): one revenue
inflow of the full price, one cost-of-goods outflow of totalPrice * 0.4, one
fixed shipping outflow of 10, all automated, dated at the order date and tagged
with the order id, in this save order. -/
def generateTransactionFromOrder (o : Order) : List CashFlowTransaction :=
  [ { type := "inflow", category := "product_sales", amount := o.totalPrice,
      description := "Revenue from order " ++ o.id, date := o.orderDate,
      orderId := some o.id, automated := true },
    { type := "outflow", category := "cost_of_goods_sold",
      amount := o.totalPrice * 0.4,
      description := "Cost of goods for order " ++ o.id, date := o.orderDate,
      orderId := some o.id, automated := true },
    { type := "outflow", category := "shipping_costs", amount := 10,
      description := "Shipping cost for order " ++ o.id, date := o.orderDate,
      orderId := some o.id, automated := true } ]

/-- The ownership-scoped query of updateOrderStatus (orderController.js:144-147):
match on the order id, and additionally on the owning user unless the caller is
an admin. -/
def orderQuery (caller : Caller) (orderId : String) (o : Order) : Bool :=
  o.id == orderId && (if caller.role == "admin" then true else o.user == caller.id)

/-- Order.findOneAndUpdate with {new : true}: update the first match and
return the updated document. -/
def updateFirstOrder (p : Order → Bool) (upd : Order → Order) :
    List Order → Option Order × List Order
  | [] => (none, [])
  | o :: rest =>
    if p o then (some (upd o), upd o :: rest)
    else
      let (r, rest') := updateFirstOrder p upd rest
      (r, o :: rest')

/-- Outcomes of updateOrderStatus (orderController.js:129-186). -/
inductive UpdateStatusResult where
  | ok (o : Order)
  | notFound
deriving DecidableEq, Repr

/-- updateOrderStatus (orderController.js:129-186).  `deriveTx` is the
transaction-derivation call (`generateOrderTransactions` of the cash-flow
automation middleware, not in the repository slice, hence a parameter): on
success its transactions are persisted, and per the try/catch of lines 157-174
a derivation failure is swallowed — the status update stays in place and the
handler still responds with the updated order. -/
def updateOrderStatus (deriveTx : Order → Except String (List CashFlowTransaction))
    (orderId newStatus : String) (caller : Caller) (s : Store) :
    UpdateStatusResult × Store :=
  match updateFirstOrder (orderQuery caller orderId)
      (fun o => { o with status := newStatus }) s.orders with
  | (some o', orders') =>
    if newStatus == "completed" then
      match deriveTx o' with
      | .ok ts => (.ok o', { s with orders := orders', transactions := s.transactions ++ ts })
      | .error _ => (.ok o', { s with orders := orders' })
    else
      (.ok o', { s with orders := orders' })
  | (none, _) => (.notFound, s)

/-- Optional date-range filter of the bulk sync (cashFlowController.js:474-479). -/
structure DateQuery where
  startDate : Option Int
  endDate : Option Int
deriving DecidableEq, Repr

/-- Membership in the optional date range, inclusive on both present ends. -/
def inDateQuery (f : DateQuery) (d : Int) : Bool :=
  (match f.startDate with | some sd => decide (sd ≤ d) | none => true) &&
  (match f.endDate with | some ed => decide (d ≤ ed) | none => true)

/-- CashFlowTransaction.find({orderId}) (cashFlowController.js:492-494). -/
def transactionsForOrder (txs : List CashFlowTransaction) (oid : String) :
    List CashFlowTransaction :=
  txs.filter (fun t => t.orderId == some oid)

/-- The per-order loop of the bulk sync (cashFlowController.js:490-505):
derive for an order only when it has no transactions yet, threading the
transaction list and counting the orders synced. -/
def syncLoop : List CashFlowTransaction → List Order → List CashFlowTransaction × Nat
  | txs, [] => (txs, 0)
  | txs, o :: rest =>
    if (transactionsForOrder txs o.id).isEmpty then
      let (txs', n) := syncLoop (txs ++ generateTransactionFromOrder o) rest
      (txs', n + 1)
    else
      syncLoop txs rest

/-- Order.find({status: "completed", ...dateFilter}) (cashFlowController.js:482-485). -/
def completedOrdersIn (f : DateQuery) (orders : List Order) : List Order :=
  orders.filter (fun o => o.status == "completed" && inDateQuery f o.orderDate)

/-- syncOrdersToTransactions (cashFlowController.js:469-517): run the guarded
derivation over every completed order in range, returning the new store and
the synced count. -/
def syncOrdersToTransactions (f : DateQuery) (s : Store) : Store × Nat :=
  let completed := completedOrdersIn f s.orders
  let (txs', n) := syncLoop s.transactions completed
  ({ s with transactions := txs' }, n)

/-- Window membership used by every aggregation match stage:
date: {$gte: startDate, $lte: endDate}. -/
def inWindow (startDate endDate : Int) (t : CashFlowTransaction) : Bool :=
  decide (startDate ≤ t.date) && decide (t.date ≤ endDate)

/-- A $match / $group / $sum aggregation followed by the controller's
`result[0]?.total || 0` fallback: zero for an empty match set, and the `|| 0`
collapse of a zero total is the identity. -/
def aggSumAmounts (txs : List CashFlowTransaction)
    (cond : CashFlowTransaction → Bool) : Rat :=
  match txs.filter cond with
  | [] => 0
  | matched =>
    let total := (matched.map (fun t => t.amount)).sum
    if total == 0 then 0 else total

/-- Result of calculateDashboardData (cashFlowController.js:62-70). -/
structure DashboardData where
  totalInflows : Rat
  totalOutflows : Rat
  netCashFlow : Rat
  currentBalance : Rat
  cashBurnRate : Rat
  runway : Option Int
  period : Int
deriving DecidableEq, Repr

/-- calculateDashboardData (cashFlowController.js:5-75): windowed inflow and
outflow sums, their difference, the all-time balance, the daily burn rate over
the period, and the runway floor with the `null` sentinel when the burn rate is
not positive. -/
def calculateDashboardData (txs : List CashFlowTransaction)
    (startDate endDate : Int) (period : Int) : DashboardData :=
  let totalInflows := aggSumAmounts txs (fun t => t.type == "inflow" && inWindow startDate endDate t)
  let totalOutflows := aggSumAmounts txs (fun t => t.type == "outflow" && inWindow startDate endDate t)
  let netCashFlow := totalInflows - totalOutflows
  let allTimeIn := aggSumAmounts txs (fun t => t.type == "inflow")
  let allTimeOut := aggSumAmounts txs (fun t => t.type == "outflow")
  let currentBalance := allTimeIn - allTimeOut
  let cashBurnRate := totalOutflows / (period : Rat)
  let runway := if 0 < cashBurnRate then some ⌊currentBalance / cashBurnRate⌋ else none
  { totalInflows := totalInflows, totalOutflows := totalOutflows,
    netCashFlow := netCashFlow, currentBalance := currentBalance,
    cashBurnRate := cashBurnRate, runway := runway, period := period }

/-- JS Math.round: round half toward positive infinity. -/
def jsRound (x : Rat) : Int := ⌊x + 1/2⌋

/-- Math.round(x * 100) / 100, the 2-decimal rounding used by the forecast. -/
def roundCents (x : Rat) : Rat := (jsRound (x * 100) : Rat) / 100

/-- One record of the forecast array (cashFlowController.js:347-353). -/
structure ForecastRow where
  date : Int
  projectedBalance : Rat
  projectedInflow : Rat
  projectedOutflow : Rat
  netProjectedFlow : Rat
deriving DecidableEq, Repr

/-- The projection loop (cashFlowController.js:340-354): starting at day index
`i`, add the average daily net flow to the running balance and emit one rounded
record per remaining day.  The running balance itself stays unrounded. -/
def forecastRows (avgIn avgOut : Rat) (now : Int) : Rat → Nat → Nat → List ForecastRow
  | _, _, 0 => []
  | bal, i, r + 1 =>
    let b := bal + (avgIn - avgOut)
    { date := now + (i : Int), projectedBalance := roundCents b,
      projectedInflow := roundCents avgIn, projectedOutflow := roundCents avgOut,
      netProjectedFlow := roundCents (avgIn - avgOut) }
      :: forecastRows avgIn avgOut now b (i + 1) r

/-- Result of getCashFlowForecast: the daily rows plus the summary and
assumptions fields (cashFlowController.js:361-377). -/
structure ForecastResult where
  forecast : List ForecastRow
  forecastPeriodDays : Nat
  startingBalance : Rat
  projectedEndingBalance : Rat
  totalProjectedInflows : Rat
  totalProjectedOutflows : Rat
  netProjectedFlowTotal : Rat
  avgDailyInflowRounded : Rat
  avgDailyOutflowRounded : Rat
deriving DecidableEq, Repr

/-- getCashFlowForecast (cashFlowController.js:320-382): 30-day trailing
averages from the dashboard computation, then the daily projection.  The
ending balance falls back to the running balance when the forecast is empty or
its last projected balance is falsy (`|| currentBalance`). -/
def getCashFlowForecast (txs : List CashFlowTransaction) (now : Int)
    (forecastDays : Nat) : ForecastResult :=
  let historicalData := calculateDashboardData txs (now - 30) now 30
  let avgDailyInflow := historicalData.totalInflows / 30
  let avgDailyOutflow := historicalData.totalOutflows / 30
  let rows := forecastRows avgDailyInflow avgDailyOutflow now historicalData.currentBalance 1 forecastDays
  let runningFinal := historicalData.currentBalance + (forecastDays : Rat) * (avgDailyInflow - avgDailyOutflow)
  let finalBalance :=
    match rows.getLast? with
    | some row => if row.projectedBalance == 0 then runningFinal else row.projectedBalance
    | none => runningFinal
  let totalIn := avgDailyInflow * (forecastDays : Rat)
  let totalOut := avgDailyOutflow * (forecastDays : Rat)
  { forecast := rows,
    forecastPeriodDays := forecastDays,
    startingBalance := historicalData.currentBalance,
    projectedEndingBalance := roundCents finalBalance,
    totalProjectedInflows := roundCents totalIn,
    totalProjectedOutflows := roundCents totalOut,
    netProjectedFlowTotal := roundCents (totalIn - totalOut),
    avgDailyInflowRounded := roundCents avgDailyInflow,
    avgDailyOutflowRounded := roundCents avgDailyOutflow }

/-- The average daily inflow the forecast derives from the last 30 days
(cashFlowController.js:333). -/
def avgDailyInflowOf (txs : List CashFlowTransaction) (now : Int) : Rat :=
  (calculateDashboardData txs (now - 30) now 30).totalInflows / 30

/-- The average daily outflow the forecast derives from the last 30 days
(cashFlowController.js:334). -/
def avgDailyOutflowOf (txs : List CashFlowTransaction) (now : Int) : Rat :=
  (calculateDashboardData txs (now - 30) now 30).totalOutflows / 30

/-- The forecast's starting balance: the all-time balance of the dashboard
computation (cashFlowController.js:338). -/
def startingBalanceOf (txs : List CashFlowTransaction) (now : Int) : Rat :=
  (calculateDashboardData txs (now - 30) now 30).currentBalance

/-- The distinct categories of a transaction list, in first-appearance order.
The source groups with a Mongo $group keyed by category; the later $sort stage
only permutes rows, which the stated properties are invariant under. -/
def categoriesOf (txs : List CashFlowTransaction) : List String :=
  txs.foldl (fun acc t => if acc.contains t.category then acc else acc ++ [t.category]) []

/-- Summed inflow amount of one category (the $cond/$sum inflow branch of
cashFlowController.js:274-278). -/
def categoryInflowSum (txs : List CashFlowTransaction) (c : String) : Rat :=
  ((txs.filter (fun t => t.category == c && t.type == "inflow")).map (fun t => t.amount)).sum

/-- Summed outflow amount of one category (cashFlowController.js:279-283). -/
def categoryOutflowSum (txs : List CashFlowTransaction) (c : String) : Rat :=
  ((txs.filter (fun t => t.category == c && t.type == "outflow")).map (fun t => t.amount)).sum

/-- Transaction count of one category across both directions
(transactionCount, cashFlowController.js:284). -/
def categoryCount (txs : List CashFlowTransaction) (c : String) : Nat :=
  (txs.filter (fun t => t.category == c)).length

/-- One reshaped row of the by-category report (cashFlowController.js:291-305). -/
structure CategoryRow where
  category : String
  amount : Rat
  count : Nat
deriving DecidableEq, Repr

/-- Result of getCashFlowByCategory (cashFlowController.js:307-313). -/
structure ByCategoryResult where
  inflows : List CategoryRow
  outflows : List CategoryRow
  totalInflowAmount : Rat
  totalOutflowAmount : Rat
deriving DecidableEq, Repr

/-- getCashFlowByCategory (cashFlowController.js:245-318): group the windowed
transactions per category, keep in each direction the categories whose summed
amount in that direction is positive, and total the listed amounts. -/
def getCashFlowByCategory (txs : List CashFlowTransaction)
    (startDate endDate : Int) : ByCategoryResult :=
  let windowTxs := txs.filter (inWindow startDate endDate)
  let cats := categoriesOf windowTxs
  let inflows := (cats.filter (fun c => decide (0 < categoryInflowSum windowTxs c))).map
      (fun c => { category := c, amount := categoryInflowSum windowTxs c,
                  count := categoryCount windowTxs c : CategoryRow })
  let outflows := (cats.filter (fun c => decide (0 < categoryOutflowSum windowTxs c))).map
      (fun c => { category := c, amount := categoryOutflowSum windowTxs c,
                  count := categoryCount windowTxs c : CategoryRow })
  { inflows := inflows, outflows := outflows,
    totalInflowAmount := (inflows.map (fun r => r.amount)).sum,
    totalOutflowAmount := (outflows.map (fun r => r.amount)).sum }

/-- An order line after populate("products.productId"): the stored fields plus
the resolved product (null when the reference does not resolve). -/
structure PopulatedLine where
  productId : Option String
  quantity : Option Rat
  product : Option Product
deriving DecidableEq, Repr

/-- An order after populate("products.productId"). -/
structure PopulatedOrder where
  id : String
  user : String
  products : List PopulatedLine
  paymentMethod : String
  status : String
  totalPrice : Rat
  orderDate : Int
deriving DecidableEq, Repr

/-- populate("products.productId") on one order. -/
def populateOrder (ps : List Product) (o : Order) : PopulatedOrder :=
  { id := o.id, user := o.user,
    products := o.products.map (fun l =>
      { productId := l.productId, quantity := l.quantity,
        product := l.productId.bind (findProduct ps) }),
    paymentMethod := o.paymentMethod, status := o.status,
    totalPrice := o.totalPrice, orderDate := o.orderDate }

/-- Outcomes of getOrderByOrderId (orderController.js:258-277). -/
inductive GetOrderResult where
  | ok (o : PopulatedOrder)
  | notFound
deriving DecidableEq, Repr

/-- getOrderByOrderId (orderController.js:258-277): Order.findOne({_id}) and
populate.  The authenticated caller is available to the handler but never used
in the query. -/
def getOrderByOrderId (_caller : Caller) (orderId : String) (s : Store) : GetOrderResult :=
  match s.orders.find? (fun o => o.id == orderId) with
  | some o => .ok (populateOrder s.products o)
  | none => .notFound

/-- getAllOrders (orderController.js:8-26): admins list every order, other
callers only the orders they own. -/
def getAllOrders (caller : Caller) (s : Store) : List PopulatedOrder :=
  if caller.role == "admin" then
    s.orders.map (populateOrder s.products)
  else
    (s.orders.filter (fun o => o.user == caller.id)).map (populateOrder s.products)

/-- A line whose shape passes the controller check of orderController.js:47:
truthy productId and a positive numeric quantity. -/
def lineShapeOk (l : OrderLine) : Bool :=
  !optStrFalsy l.productId &&
    (match l.quantity with
     | some q => decide (0 < q)
     | none => false)

/-- A line whose product reference resolves (orderController.js:50-53). -/
def lineResolvable (ps : List Product) (l : OrderLine) : Bool :=
  match l.productId with
  | some pid => (findProduct ps pid).isSome
  | none => false

/-- A well-formed, resolvable line. -/
def lineWellFormed (ps : List Product) (l : OrderLine) : Bool :=
  lineShapeOk l && lineResolvable ps l

/-- A line failing the shape check or the product lookup. -/
def lineInvalid (ps : List Product) (l : OrderLine) : Bool :=
  !lineShapeOk l || !lineResolvable ps l

/-- A line whose requested quantity exceeds the current stock of its resolved
product (orderController.js:54). -/
def lineExceedsStock (ps : List Product) (l : OrderLine) : Bool :=
  match l.productId, l.quantity with
  | some pid, some q =>
    match findProduct ps pid with
    | some p => decide (p.stockQuantity < q)
    | none => false
  | _, _ => false

/-- Whether the conditional decrement of one line matches no document against
the given product state. -/
def lineDecFails (ps : List Product) (l : OrderLine) : Bool :=
  match l.productId, l.quantity with
  | some pid, some q => (condDecrement ps pid q).isNone
  | _, _ => true

/-- Apply the conditional decrements of a list of lines in order, requiring
every one to match (the successful prefix of the commit pass). -/
def decFirstLines : List Product → List OrderLine → Option (List Product)
  | ps, [] => some ps
  | ps, l :: rest =>
    match l.productId, l.quantity with
    | some pid, some q => (condDecrement ps pid q).bind (fun ps' => decFirstLines ps' rest)
    | _, _ => none

/-- Rounding of a scaled value to the nearest integer with ties away from
zero, as the specification describes the forecast rounding.  Stated for the
refinement comparison with `jsRound`; the two differ on negative halves. -/
def roundHalfAwayFromZero (x : Rat) : Int :=
  if 0 ≤ x then ⌊x + 1/2⌋ else -⌊-x + 1/2⌋

/-- Two-decimal rounding as the specification words it. -/
def roundCentsAway (x : Rat) : Rat := (roundHalfAwayFromZero (x * 100) : Rat) / 100

def c1DemoOrder : Order :=
  { id := "o1", user := "u1", products := [], paymentMethod := "cash",
    status := "completed", totalPrice := 100, orderDate := 0 }

def widgetA : Product := { id := "A", name := "widget", stockQuantity := 5, price := 3 }

def c2Store : Store := { products := [widgetA], orders := [], transactions := [] }

def c2BadReq : CreateOrderRequest :=
  { products := some [{ productId := none, quantity := some 1 },
                      { productId := some "A", quantity := some 10 }],
    paymentMethod := some "cash", status := none, totalPrice := some 100 }

def c2Line : OrderLine := { productId := some "A", quantity := some 10 }

def c2OkReq : CreateOrderRequest :=
  { products := some [c2Line],
    paymentMethod := some "cash", status := none, totalPrice := some 100 }

def c3Store : Store :=
  { products := [{ id := "A", name := "widget", stockQuantity := 8, price := 3 }],
    orders := [], transactions := [] }

def c3Req : CreateOrderRequest :=
  { products := some [{ productId := some "A", quantity := some 5 },
                      { productId := some "A", quantity := some 5 }],
    paymentMethod := some "cash", status := none, totalPrice := some 100 }

def c3After : List Product :=
  [{ id := "A", name := "widget", stockQuantity := 3, price := 3 }]

def emptyStore : Store := { products := [], orders := [], transactions := [] }

def c8Req : CreateOrderRequest :=
  { products := some [], paymentMethod := some "cash", status := none,
    totalPrice := some (-5) }

def c8Order : Order :=
  { id := "o1", user := "u1", products := [], paymentMethod := "cash",
    status := "processing", totalPrice := -5, orderDate := 0 }

def c8MissingReq : CreateOrderRequest :=
  { products := none, paymentMethod := some "cash", status := none,
    totalPrice := some 100 }

def c4Order : Order :=
  { id := "o1", user := "u1", products := [], paymentMethod := "cash",
    status := "processing", totalPrice := 100, orderDate := 0 }

def c4Store : Store := { products := [], orders := [c4Order], transactions := [] }

def c4Updated : Order := { c4Order with status := "completed" }

def c4FailingDerivation : Order → Except String (List CashFlowTransaction) :=
  fun _ => .error "derivation failure"

def c10Order : Order :=
  { id := "o1", user := "alice",
    products := [{ productId := some "A", quantity := some 1 }],
    paymentMethod := "cash", status := "processing", totalPrice := 3, orderDate := 0 }

def c10Store : Store := { products := [widgetA], orders := [c10Order], transactions := [] }

def bobCaller : Caller := { id := "bob", role := "customer" }

def aliceCaller : Caller := { id := "alice", role := "customer" }

def c5Order : Order :=
  { id := "o1", user := "u1", products := [], paymentMethod := "cash",
    status := "completed", totalPrice := 100, orderDate := 5 }

def c5Store : Store := { products := [], orders := [c5Order], transactions := [] }

def noDateQuery : DateQuery := { startDate := none, endDate := none }

def c6Txs : List CashFlowTransaction :=
  [ { type := "inflow", category := "product_sales", amount := 100,
      description := "a", date := 5, orderId := none, automated := false },
    { type := "inflow", category := "product_sales", amount := 50,
      description := "b", date := 6, orderId := none, automated := false },
    { type := "outflow", category := "shipping_costs", amount := 30,
      description := "c", date := 7, orderId := none, automated := false },
    { type := "inflow", category := "other_income", amount := 350,
      description := "d", date := -5, orderId := none, automated := false },
    { type := "outflow", category := "operating_expenses", amount := 170,
      description := "e", date := -5, orderId := none, automated := false } ]

def c9Txs : List CashFlowTransaction :=
  [ { type := "inflow", category := "product_sales", amount := 100,
      description := "a", date := 5, orderId := none, automated := true },
    { type := "outflow", category := "shipping_costs", amount := 10,
      description := "b", date := 5, orderId := none, automated := true } ]

def c7CtrTxs : List CashFlowTransaction :=
  [ { type := "outflow", category := "operating_expenses", amount := 100.005,
      description := "d", date := -40, orderId := none, automated := false } ]

def c7Txs : List CashFlowTransaction :=
  [ { type := "inflow", category := "product_sales", amount := 300,
      description := "a", date := -5, orderId := none, automated := true },
    { type := "outflow", category := "cost_of_goods_sold", amount := 120,
      description := "b", date := -5, orderId := none, automated := true },
    { type := "outflow", category := "operating_expenses", amount := 80,
      description := "c", date := -40, orderId := none, automated := false } ]

theorem preCheckLoop_status (ps : List Product) :
    ∀ lines err, preCheckLoop ps lines = some err → httpStatus err = 400 := by
  intro lines
  induction lines with
  | nil => intro err h; simp [preCheckLoop] at h
  | cons l rest ih =>
    intro err h
    rw [preCheckLoop] at h
    cases hpid : l.productId with
    | none => rw [hpid] at h; simp at h; subst h; rfl
    | some pid =>
      cases hq : l.quantity with
      | none => rw [hpid, hq] at h; simp at h; subst h; rfl
      | some q =>
        rw [hpid, hq] at h
        simp only at h
        by_cases hz : pid = "" ∨ q ≤ 0
        · rw [if_pos hz] at h
          cases h; rfl
        · rw [if_neg hz] at h
          cases hfind : findProduct ps pid with
          | none => rw [hfind] at h; cases h; rfl
          | some p =>
            rw [hfind] at h
            simp only at h
            by_cases hst : p.stockQuantity < q
            · rw [if_pos hst] at h; cases h; rfl
            · rw [if_neg hst] at h; exact ih err h

theorem preCheckLoop_none_wellFormed (ps : List Product) :
    ∀ lines, preCheckLoop ps lines = none →
      lines.all (fun l => lineWellFormed ps l) = true := by
  intro lines
  induction lines with
  | nil => intro _; rfl
  | cons l rest ih =>
    intro h
    rw [preCheckLoop] at h
    cases hpid : l.productId with
    | none => rw [hpid] at h; simp at h
    | some pid =>
      cases hq : l.quantity with
      | none => rw [hpid, hq] at h; simp at h
      | some q =>
        rw [hpid, hq] at h
        simp only at h
        by_cases hz : pid = "" ∨ q ≤ 0
        · rw [if_pos hz] at h; simp at h
        · rw [if_neg hz] at h
          cases hfind : findProduct ps pid with
          | none => rw [hfind] at h; simp at h
          | some p =>
            rw [hfind] at h
            simp only at h
            by_cases hst : p.stockQuantity < q
            · rw [if_pos hst] at h; simp at h
            · rw [if_neg hst] at h
              push_neg at hz
              rw [List.all_cons, ih h, Bool.and_true]
              simp [lineWellFormed, lineShapeOk, lineResolvable, optStrFalsy,
                    hpid, hq, hfind, hz.1, hz.2]

theorem preCheckLoop_insufficient (ps : List Product) :
    ∀ lines, lines.all (fun l => lineWellFormed ps l) = true →
      lines.any (fun l => lineExceedsStock ps l) = true →
      ∃ pid, preCheckLoop ps lines = some (.insufficientStock pid) := by
  intro lines
  induction lines with
  | nil => intro _ hany; simp at hany
  | cons l rest ih =>
    intro hall hany
    rw [List.all_cons] at hall
    obtain ⟨hl, hrest⟩ := Bool.and_eq_true_iff.mp hall
    obtain ⟨pid, hpid, hshape⟩ : ∃ pid, l.productId = some pid ∧ pid ≠ "" := by
      have h1 := (Bool.and_eq_true_iff.mp hl).1
      rw [lineShapeOk] at h1
      cases hpid : l.productId with
      | none => rw [hpid] at h1; simp [optStrFalsy] at h1
      | some pid =>
        refine ⟨pid, rfl, ?_⟩
        rw [hpid] at h1
        have := (Bool.and_eq_true_iff.mp h1).1
        simpa [optStrFalsy] using this
    obtain ⟨q, hq, hqpos⟩ : ∃ q, l.quantity = some q ∧ 0 < q := by
      have h1 := (Bool.and_eq_true_iff.mp hl).1
      rw [lineShapeOk] at h1
      have h2 := (Bool.and_eq_true_iff.mp h1).2
      cases hq : l.quantity with
      | none => rw [hq] at h2; simp at h2
      | some q => exact ⟨q, rfl, by rw [hq] at h2; exact of_decide_eq_true h2⟩
    obtain ⟨p, hfind⟩ : ∃ p, findProduct ps pid = some p := by
      have h2 := (Bool.and_eq_true_iff.mp hl).2
      rw [lineResolvable, hpid] at h2
      exact Option.isSome_iff_exists.mp h2
    rw [preCheckLoop, hpid, hq]
    simp only
    rw [if_neg (by push_neg; exact ⟨hshape, hqpos⟩), hfind]
    simp only
    by_cases hst : p.stockQuantity < q
    · rw [if_pos hst]; exact ⟨pid, rfl⟩
    · rw [if_neg hst]
      apply ih hrest
      rcases List.any_eq_true.mp hany with ⟨l', hl', hex⟩
      rcases List.mem_cons.mp hl' with hhd | htl
      · exfalso
        subst hhd
        simp only [lineExceedsStock, hpid, hq, hfind] at hex
        exact hst (of_decide_eq_true hex)
      · exact List.any_eq_true.mpr ⟨l', htl, hex⟩

theorem commitLoop_error_prefix :
    ∀ (lines : List OrderLine) (ps psAfter : List Product),
      commitLoop ps lines = .error psAfter →
      ∃ k l, lines.get? k = some l ∧
        decFirstLines ps (lines.take k) = some psAfter ∧
        lineDecFails psAfter l = true := by
  intro lines
  induction lines with
  | nil => intro ps psAfter h; simp [commitLoop] at h
  | cons l rest ih =>
    intro ps psAfter h
    rw [commitLoop] at h
    cases hpid : l.productId with
    | none =>
      rw [hpid] at h
      simp only at h
      cases h
      exact ⟨0, l, rfl, rfl, by simp [lineDecFails, hpid]⟩
    | some pid =>
      cases hq : l.quantity with
      | none =>
        rw [hpid, hq] at h
        simp only at h
        cases h
        exact ⟨0, l, rfl, rfl, by simp [lineDecFails, hpid, hq]⟩
      | some q =>
        rw [hpid, hq] at h
        simp only at h
        cases hdec : condDecrement ps pid q with
        | none =>
          rw [hdec] at h
          cases h
          exact ⟨0, l, rfl, rfl, by simp [lineDecFails, hpid, hq, hdec]⟩
        | some ps1 =>
          rw [hdec] at h
          obtain ⟨k, l', hget, hpre, hfail⟩ := ih ps1 psAfter h
          refine ⟨k + 1, l', by simpa using hget, ?_, hfail⟩
          simp only [List.take_succ_cons, decFirstLines, hpid, hq, hdec, Option.bind_some]
          exact hpre

theorem createOrder_preCheck_some (req : CreateOrderRequest) (lines : List OrderLine)
    (userId newId : String) (now : Int) (s : Store) (err : CreateOrderResult)
    (hm : topFieldsMissing req = false)
    (hp : req.products = some lines)
    (hpre : preCheckLoop s.products lines = some err) :
    createOrder req userId newId now s = (err, s) := by
  rw [createOrder, hm]
  simp only [Bool.false_eq_true, if_false, hp, Option.getD_some, hpre]

theorem createOrder_commit_error (req : CreateOrderRequest) (lines : List OrderLine)
    (userId newId : String) (now : Int) (s : Store) (psAfter : List Product)
    (hm : topFieldsMissing req = false)
    (hp : req.products = some lines)
    (hpre : preCheckLoop s.products lines = none)
    (hcommit : commitLoop s.products lines = .error psAfter) :
    createOrder req userId newId now s = (.conflict, { s with products := psAfter }) := by
  rw [createOrder, hm]
  simp only [Bool.false_eq_true, if_false, hp, Option.getD_some, hpre, hcommit]

/-- Claim C1: deriving transactions from a completed order produces exactly
three records — an inflow of category product_sales carrying the full
totalPrice, an outflow of category cost_of_goods_sold carrying 0.4 times the
totalPrice and an outflow of category shipping_costs carrying 10 — and all
three are automated, dated at the order date and tagged with the order id. -/
theorem c1_derivation_exactly_three (o : Order) (h : o.status = "completed") :
    (generateTransactionFromOrder o).length = 3 ∧
    (generateTransactionFromOrder o).map (fun t => t.type) = ["inflow", "outflow", "outflow"] ∧
    (generateTransactionFromOrder o).map (fun t => t.category) =
      ["product_sales", "cost_of_goods_sold", "shipping_costs"] ∧
    (generateTransactionFromOrder o).map (fun t => t.amount) =
      [o.totalPrice, 0.4 * o.totalPrice, 10] ∧
    (generateTransactionFromOrder o).all (fun t => t.automated) = true ∧
    (generateTransactionFromOrder o).all (fun t => t.date == o.orderDate) = true ∧
    (generateTransactionFromOrder o).all (fun t => t.orderId == some o.id) = true := by
  refine ⟨rfl, rfl, rfl, ?_, rfl, ?_, ?_⟩
  · simp [generateTransactionFromOrder, mul_comm]
  · simp [generateTransactionFromOrder]
  · simp [generateTransactionFromOrder]

/-- Witness for C1 at a concrete completed order. -/
theorem c1_derivation_exactly_three_witness :
    c1DemoOrder.status = "completed" ∧
    (generateTransactionFromOrder c1DemoOrder).length = 3 ∧
    (generateTransactionFromOrder c1DemoOrder).map (fun t => t.amount) =
      [c1DemoOrder.totalPrice, 0.4 * c1DemoOrder.totalPrice, 10] :=
  ⟨rfl, (c1_derivation_exactly_three c1DemoOrder rfl).1,
    (c1_derivation_exactly_three c1DemoOrder rfl).2.2.2.1⟩

/-- Claim C2 (amended): when the top-level fields are present and every line is
well-formed with a resolvable product, a request in which some line's quantity
exceeds that product's current stock is answered with the insufficient-stock
400 response and nothing is mutated — the pre-check pass fails before any
decrement, so the store comes back unchanged and no order is persisted. -/
theorem c2_insufficient_stock_rejected_unchanged (req : CreateOrderRequest)
    (lines : List OrderLine) (userId newId : String) (now : Int) (s : Store)
    (hm : topFieldsMissing req = false)
    (hp : req.products = some lines)
    (hwf : lines.all (fun l => lineWellFormed s.products l) = true)
    (hex : lines.any (fun l => lineExceedsStock s.products l) = true) :
    (createOrder req userId newId now s).1.isInsufficientStock = true ∧
    (createOrder req userId newId now s).2 = s := by
  obtain ⟨pid, hpre⟩ := preCheckLoop_insufficient s.products lines hwf hex
  have hco := createOrder_preCheck_some req lines userId newId now s _ hm hp hpre
  rw [hco]
  exact ⟨rfl, rfl⟩

/-- Counterexample to C2 as stated: this request has a line whose quantity
exceeds stock, yet the response is the line-validation 400 (its first line has
no productId), not the insufficient-stock response. -/
theorem c2_counterexample :
    ((c2BadReq.products.getD []).any
      (fun l => lineExceedsStock c2Store.products l)) = true ∧
    (createOrder c2BadReq "u1" "o1" 0 c2Store).1 = .invalidLine ∧
    (createOrder c2BadReq "u1" "o1" 0 c2Store).1.isInsufficientStock = false := by
  have hm : topFieldsMissing c2BadReq = false := by
    norm_num [topFieldsMissing, c2BadReq, optStrFalsy, optRatFalsy] <;> decide
  have hpre : preCheckLoop c2Store.products (c2BadReq.products.getD []) =
      some .invalidLine := by
    simp [preCheckLoop, c2BadReq]
  have hco := createOrder_preCheck_some c2BadReq _ "u1" "o1" 0 c2Store _ hm rfl hpre
  refine ⟨?_, by rw [hco], by rw [hco]; rfl⟩
  norm_num [c2BadReq, c2Store, widgetA, lineExceedsStock, findProduct]

/-- Witness for C2 (amended) at a concrete store and request. -/
theorem c2_insufficient_stock_rejected_unchanged_witness :
    topFieldsMissing c2OkReq = false ∧
    ([c2Line]).all (fun l => lineWellFormed c2Store.products l) = true ∧
    ([c2Line]).any (fun l => lineExceedsStock c2Store.products l) = true ∧
    (createOrder c2OkReq "u1" "o1" 0 c2Store).1.isInsufficientStock = true ∧
    (createOrder c2OkReq "u1" "o1" 0 c2Store).2 = c2Store := by
  have hm : topFieldsMissing c2OkReq = false := by
    norm_num [topFieldsMissing, c2OkReq, optStrFalsy, optRatFalsy] <;> decide
  have hwf : ([c2Line]).all (fun l => lineWellFormed c2Store.products l) = true := by
    norm_num [lineWellFormed, lineShapeOk, lineResolvable, optStrFalsy,
              findProduct, c2Store, widgetA, c2Line] <;> decide
  have hex : ([c2Line]).any (fun l => lineExceedsStock c2Store.products l) = true := by
    norm_num [lineExceedsStock, findProduct, c2Store, widgetA, c2Line] <;> decide
  have h := c2_insufficient_stock_rejected_unchanged c2OkReq _ "u1" "o1" 0 c2Store
    hm rfl hwf hex
  exact ⟨hm, hwf, hex, h.1, h.2⟩

/-- Claim C3: when the pre-check pass succeeds but some line's conditional
decrement during the commit pass matches no document, createOrder answers
Conflict (409), persists no order, and keeps the decrements already applied to
the earlier lines: the resulting store carries exactly the successful prefix of
decrements, with the failing line unmatched against it. -/
theorem c3_conflict_no_rollback (req : CreateOrderRequest) (lines : List OrderLine)
    (userId newId : String) (now : Int) (s : Store) (psAfter : List Product)
    (hm : topFieldsMissing req = false)
    (hp : req.products = some lines)
    (hpre : preCheckLoop s.products lines = none)
    (hcommit : commitLoop s.products lines = .error psAfter) :
    createOrder req userId newId now s = (.conflict, { s with products := psAfter }) ∧
    httpStatus (createOrder req userId newId now s).1 = 409 ∧
    (createOrder req userId newId now s).2.orders = s.orders ∧
    ∃ k l, lines.get? k = some l ∧
      decFirstLines s.products (lines.take k) = some psAfter ∧
      lineDecFails psAfter l = true := by
  have hco := createOrder_commit_error req lines userId newId now s psAfter hm hp hpre hcommit
  exact ⟨hco, by rw [hco]; rfl, by rw [hco],
    commitLoop_error_prefix lines s.products psAfter hcommit⟩

/-- Witness for C3: two lines over the same product pass the pre-check
individually, the first decrement lands, the second finds no matching document,
and the store keeps the first decrement. -/
theorem c3_conflict_no_rollback_witness :
    topFieldsMissing c3Req = false ∧
    preCheckLoop c3Store.products (c3Req.products.getD []) = none ∧
    commitLoop c3Store.products (c3Req.products.getD []) = .error c3After ∧
    createOrder c3Req "u1" "o1" 0 c3Store = (.conflict, { c3Store with products := c3After }) := by
  have hm : topFieldsMissing c3Req = false := by
    norm_num [topFieldsMissing, c3Req, optStrFalsy, optRatFalsy] <;> decide
  have hpre : preCheckLoop c3Store.products (c3Req.products.getD []) = none := by
    norm_num [preCheckLoop, c3Req, c3Store, findProduct] <;> decide
  have hcommit : commitLoop c3Store.products (c3Req.products.getD []) = .error c3After := by
    norm_num [commitLoop, condDecrement, c3Req, c3Store, c3After] <;> decide
  have h := c3_conflict_no_rollback c3Req _ "u1" "o1" 0 c3Store c3After hm rfl hpre hcommit
  exact ⟨hm, hpre, hcommit, h.1⟩

/-- Claim C8 (amended): createOrder rejects with a 400 and leaves the store
untouched (no order persisted, no stock mutated) exactly when its own checks
fail: a falsy products/paymentMethod/totalPrice field, or some line with a
falsy productId, a non-positive or missing quantity, or an unresolvable
product.  The checks are JS-truthiness based, so they do not require a
non-empty line list, an enum payment method, a positive totalPrice or integer
quantities. -/
theorem c8_invalid_input_rejected (req : CreateOrderRequest)
    (userId newId : String) (now : Int) (s : Store)
    (h : topFieldsMissing req = true ∨
         ∃ lines, req.products = some lines ∧
           lines.any (fun l => lineInvalid s.products l) = true) :
    httpStatus (createOrder req userId newId now s).1 = 400 ∧
    (createOrder req userId newId now s).2 = s := by
  by_cases hm : topFieldsMissing req = true
  · rw [createOrder, hm]
    exact ⟨rfl, rfl⟩
  · have hm' : topFieldsMissing req = false := by
      revert hm; cases topFieldsMissing req <;> simp
    rcases h with h | ⟨lines, hp, hany⟩
    · exact absurd h hm
    · cases hpre : preCheckLoop s.products lines with
      | none =>
        exfalso
        have hall := preCheckLoop_none_wellFormed s.products lines hpre
        rcases List.any_eq_true.mp hany with ⟨l, hl, hinv⟩
        have hwf := List.all_eq_true.mp hall l hl
        rw [lineWellFormed] at hwf
        rcases Bool.and_eq_true_iff.mp hwf with ⟨h1, h2⟩
        simp [lineInvalid, h1, h2] at hinv
      | some err =>
        have hco := createOrder_preCheck_some req lines userId newId now s err hm' hp hpre
        rw [hco]
        exact ⟨preCheckLoop_status s.products lines err hpre, rfl⟩

/-- Counterexample to C8 as stated: a request with an empty line list and a
negative totalPrice — malformed by the claim's requirements — is nevertheless
answered 201 and the order is persisted. -/
theorem c8_counterexample :
    c8Req.products = some [] ∧
    c8Req.totalPrice = some (-5) ∧
    createOrder c8Req "u1" "o1" 0 emptyStore =
      (.created c8Order, { emptyStore with orders := [c8Order] }) ∧
    httpStatus (createOrder c8Req "u1" "o1" 0 emptyStore).1 = 201 := by
  have hco : createOrder c8Req "u1" "o1" 0 emptyStore =
      (.created c8Order, { emptyStore with orders := [c8Order] }) := by
    norm_num [createOrder, topFieldsMissing, c8Req, optStrFalsy, optRatFalsy,
              preCheckLoop, commitLoop, orderSchemaValid, paymentMethodEnum,
              orderStatusEnum, emptyStore, c8Order] <;> decide
  exact ⟨rfl, rfl, hco, by rw [hco]; rfl⟩

/-- Witness for C8 (amended) at a concrete invalid request. -/
theorem c8_invalid_input_rejected_witness :
    topFieldsMissing c8MissingReq = true ∧
    httpStatus (createOrder c8MissingReq "u1" "o1" 0 emptyStore).1 = 400 ∧
    (createOrder c8MissingReq "u1" "o1" 0 emptyStore).2 = emptyStore := by
  have h := c8_invalid_input_rejected c8MissingReq "u1" "o1" 0 emptyStore (Or.inl rfl)
  exact ⟨rfl, h.1, h.2⟩

theorem updateFirstOrder_some (p : Order → Bool) (upd : Order → Order) :
    ∀ (orders : List Order) (o' : Order) (orders' : List Order),
      updateFirstOrder p upd orders = (some o', orders') →
      ∃ o, p o = true ∧ o' = upd o := by
  intro orders
  induction orders with
  | nil => intro o' orders' h; simp [updateFirstOrder] at h
  | cons o rest ih =>
    intro o' orders' h
    rw [updateFirstOrder] at h
    by_cases hp : p o = true
    · rw [if_pos hp] at h
      exact ⟨o, hp, (Option.some.inj (congrArg Prod.fst h)).symm⟩
    · rw [if_neg hp] at h
      cases hrec : updateFirstOrder p upd rest with
      | mk r rest2 =>
        rw [hrec] at h
        simp only at h
        have h1 : r = some o' := congrArg Prod.fst h
        rw [h1] at hrec
        exact ih o' rest2 hrec

/-- Claim C4: when the ownership-scoped query of updateOrderStatus matches an
order and the new status is "completed", the handler stores the status update
and synchronously invokes transaction derivation, persisting the derived
transactions on success and swallowing a failure: either way the order keeps
status "completed" and the response still reports success with the updated
order. -/
theorem c4_completed_derivation_swallowed
    (deriveTx : Order → Except String (List CashFlowTransaction))
    (orderId : String) (caller : Caller) (s : Store) (o' : Order) (orders' : List Order)
    (hfind : updateFirstOrder (orderQuery caller orderId)
      (fun o => { o with status := "completed" }) s.orders = (some o', orders')) :
    o'.status = "completed" ∧
    updateOrderStatus deriveTx orderId "completed" caller s =
      (.ok o',
       { s with orders := orders',
                transactions := match deriveTx o' with
                                | .ok ts => s.transactions ++ ts
                                | .error _ => s.transactions }) := by
  obtain ⟨o, _, ho'⟩ := updateFirstOrder_some _ _ s.orders o' orders' hfind
  refine ⟨by rw [ho'], ?_⟩
  simp only [updateOrderStatus, hfind]
  cases hd : deriveTx o' with
  | ok ts => simp [hd]
  | error e => simp [hd]

/-- Witness for C4: a failing derivation is swallowed; the response is still
the updated, completed order and the status update stays in place. -/
theorem c4_completed_derivation_swallowed_witness :
    updateFirstOrder (orderQuery { id := "admin1", role := "admin" } "o1")
      (fun o => { o with status := "completed" }) c4Store.orders =
      (some c4Updated, [c4Updated]) ∧
    c4Updated.status = "completed" ∧
    updateOrderStatus c4FailingDerivation "o1" "completed"
      { id := "admin1", role := "admin" } c4Store =
      (.ok c4Updated, { c4Store with orders := [c4Updated] }) := by
  have hfind : updateFirstOrder (orderQuery { id := "admin1", role := "admin" } "o1")
      (fun o => { o with status := "completed" }) c4Store.orders =
      (some c4Updated, [c4Updated]) := by
    simp [updateFirstOrder, orderQuery, c4Store, c4Order, c4Updated]
  have h := c4_completed_derivation_swallowed c4FailingDerivation "o1"
    { id := "admin1", role := "admin" } c4Store c4Updated [c4Updated] hfind
  refine ⟨hfind, h.1, ?_⟩
  rw [h.2]
  rfl

/-- Claim C10: getOrderByOrderId ignores the caller entirely — any two
authenticated callers get the same result: the populated order when the id
resolves, NotFound otherwise — whereas the order listing operation scopes
non-admin callers to their own orders, so a non-admin customer can fetch
another user's order by its id. -/
theorem c10_get_order_caller_blind (s : Store) (orderId : String) (c1 c2 : Caller) :
    getOrderByOrderId c1 orderId s = getOrderByOrderId c2 orderId s ∧
    (∀ o, s.orders.find? (fun o' => o'.id == orderId) = some o →
      getOrderByOrderId c1 orderId s = .ok (populateOrder s.products o)) ∧
    (s.orders.find? (fun o' => o'.id == orderId) = none →
      getOrderByOrderId c1 orderId s = .notFound) ∧
    (c1.role ≠ "admin" → ∀ po ∈ getAllOrders c1 s, po.user = c1.id) := by
  refine ⟨rfl, ?_, ?_, ?_⟩
  · intro o h; simp only [getOrderByOrderId, h]
  · intro h; simp only [getOrderByOrderId, h]
  · intro hrole po hpo
    rw [getAllOrders, if_neg (by simpa using hrole)] at hpo
    rcases List.mem_map.mp hpo with ⟨o, ho, rfl⟩
    have husr := (List.mem_filter.mp ho).2
    simp only [populateOrder]
    exact beq_iff_eq.mp husr

/-- Witness for C10: the non-admin caller bob fetches alice's order by its id
with the same outcome alice would get, while bob's order listing contains only
bob's own orders. -/
theorem c10_get_order_caller_blind_witness :
    c10Store.orders.find? (fun o' => o'.id == "o1") = some c10Order ∧
    getOrderByOrderId bobCaller "o1" c10Store =
      .ok (populateOrder c10Store.products c10Order) ∧
    getOrderByOrderId bobCaller "o1" c10Store =
      getOrderByOrderId aliceCaller "o1" c10Store ∧
    (∀ po ∈ getAllOrders bobCaller c10Store, po.user = bobCaller.id) := by
  have h := c10_get_order_caller_blind c10Store "o1" bobCaller aliceCaller
  have hfind : c10Store.orders.find? (fun o' => o'.id == "o1") = some c10Order := by
    simp [c10Store, c10Order]
  exact ⟨hfind, h.2.1 c10Order hfind, h.1, h.2.2.2 (by decide)⟩

theorem transactionsForOrder_append (a b : List CashFlowTransaction) (oid : String) :
    transactionsForOrder (a ++ b) oid =
      transactionsForOrder a oid ++ transactionsForOrder b oid :=
  List.filter_append _ _

theorem transactionsForOrder_gen_self (o : Order) :
    transactionsForOrder (generateTransactionFromOrder o) o.id =
      generateTransactionFromOrder o := by
  simp [transactionsForOrder, generateTransactionFromOrder]

theorem transactionsForOrder_gen_other (o : Order) (oid : String) (h : o.id ≠ oid) :
    transactionsForOrder (generateTransactionFromOrder o) oid = [] := by
  simp [transactionsForOrder, generateTransactionFromOrder, h]

theorem syncLoop_cons_derive (txs : List CashFlowTransaction) (o : Order)
    (rest : List Order) (h : (transactionsForOrder txs o.id).isEmpty = true) :
    syncLoop txs (o :: rest) =
      ((syncLoop (txs ++ generateTransactionFromOrder o) rest).1,
       (syncLoop (txs ++ generateTransactionFromOrder o) rest).2 + 1) := by
  rw [syncLoop, if_pos h]

theorem syncLoop_cons_skip (txs : List CashFlowTransaction) (o : Order)
    (rest : List Order) (h : (transactionsForOrder txs o.id).isEmpty = false) :
    syncLoop txs (o :: rest) = syncLoop txs rest := by
  rw [syncLoop, if_neg (by simp [h])]

theorem syncLoop_extends (L : List Order) :
    ∀ txs, ∃ extra, (syncLoop txs L).1 = txs ++ extra := by
  induction L with
  | nil => intro txs; exact ⟨[], by simp [syncLoop]⟩
  | cons o rest ih =>
    intro txs
    by_cases hE : (transactionsForOrder txs o.id).isEmpty = true
    · rw [syncLoop_cons_derive txs o rest hE]
      obtain ⟨e2, he2⟩ := ih (txs ++ generateTransactionFromOrder o)
      exact ⟨generateTransactionFromOrder o ++ e2, by simp [he2]⟩
    · have hE' : (transactionsForOrder txs o.id).isEmpty = false := by
        revert hE; cases (transactionsForOrder txs o.id).isEmpty <;> simp
      rw [syncLoop_cons_skip txs o rest hE']
      exact ih txs

theorem syncLoop_preserves (oid : String) :
    ∀ (L : List Order) (txs : List CashFlowTransaction),
      L.filter (fun o => o.id == oid) = [] →
      transactionsForOrder (syncLoop txs L).1 oid = transactionsForOrder txs oid := by
  intro L
  induction L with
  | nil => intro txs _; rfl
  | cons o rest ih =>
    intro txs hL
    rw [List.filter_cons] at hL
    by_cases hid : (o.id == oid) = true
    · rw [if_pos hid] at hL; simp at hL
    · rw [if_neg hid] at hL
      have hne : o.id ≠ oid := by simpa using hid
      by_cases hE : (transactionsForOrder txs o.id).isEmpty = true
      · rw [syncLoop_cons_derive txs o rest hE,
            ih (txs ++ generateTransactionFromOrder o) hL,
            transactionsForOrder_append, transactionsForOrder_gen_other o oid hne]
        simp
      · have hE' : (transactionsForOrder txs o.id).isEmpty = false := by
          revert hE; cases (transactionsForOrder txs o.id).isEmpty <;> simp
        rw [syncLoop_cons_skip txs o rest hE']
        exact ih txs hL

theorem syncLoop_mem_nonempty :
    ∀ (L : List Order) (txs : List CashFlowTransaction) (o : Order), o ∈ L →
      transactionsForOrder (syncLoop txs L).1 o.id ≠ [] := by
  intro L
  induction L with
  | nil => intro txs o h; simp at h
  | cons o1 rest ih =>
    intro txs o hmem
    by_cases hE : (transactionsForOrder txs o1.id).isEmpty = true
    · rw [syncLoop_cons_derive txs o1 rest hE]
      rcases List.mem_cons.mp hmem with rfl | htl
      · obtain ⟨extra, hex⟩ := syncLoop_extends rest (txs ++ generateTransactionFromOrder o)
        rw [hex, transactionsForOrder_append, transactionsForOrder_append,
            transactionsForOrder_gen_self]
        intro hnil
        rcases List.append_eq_nil.mp hnil with ⟨h1, _⟩
        rcases List.append_eq_nil.mp h1 with ⟨_, h3⟩
        simp [generateTransactionFromOrder] at h3
      · exact ih (txs ++ generateTransactionFromOrder o1) o htl
    · have hE' : (transactionsForOrder txs o1.id).isEmpty = false := by
        revert hE; cases (transactionsForOrder txs o1.id).isEmpty <;> simp
      rw [syncLoop_cons_skip txs o1 rest hE']
      rcases List.mem_cons.mp hmem with rfl | htl
      · obtain ⟨extra, hex⟩ := syncLoop_extends rest txs
        rw [hex, transactionsForOrder_append]
        intro hnil
        rcases List.append_eq_nil.mp hnil with ⟨h1, _⟩
        rw [h1] at hE'
        simp at hE'
      · exact ih txs o htl

theorem syncLoop_skip_all :
    ∀ (L : List Order) (txs : List CashFlowTransaction),
      (∀ o ∈ L, transactionsForOrder txs o.id ≠ []) →
      syncLoop txs L = (txs, 0) := by
  intro L
  induction L with
  | nil => intro txs _; rfl
  | cons o rest ih =>
    intro txs hall
    have h1 := hall o (List.mem_cons_self o rest)
    have hE : (transactionsForOrder txs o.id).isEmpty = false := by
      cases hh : transactionsForOrder txs o.id with
      | nil => exact absurd hh h1
      | cons a l => rfl
    rw [syncLoop_cons_skip txs o rest hE]
    exact ih txs (fun o' ho' => hall o' (List.mem_cons_of_mem o ho'))

theorem syncLoop_count_three (o : Order) :
    ∀ (L : List Order) (txs : List CashFlowTransaction),
      L.filter (fun o' => o'.id == o.id) = [o] →
      transactionsForOrder txs o.id = [] →
      transactionsForOrder (syncLoop txs L).1 o.id = generateTransactionFromOrder o := by
  intro L
  induction L with
  | nil => intro txs hL _; simp at hL
  | cons o1 rest ih =>
    intro txs hL hT
    rw [List.filter_cons] at hL
    by_cases hid : (o1.id == o.id) = true
    · rw [if_pos hid] at hL
      injection hL with h1 h2
      subst h1
      have hE : (transactionsForOrder txs o1.id).isEmpty = true := by rw [hT]; rfl
      rw [syncLoop_cons_derive txs o1 rest hE,
          syncLoop_preserves o1.id rest (txs ++ generateTransactionFromOrder o1) h2,
          transactionsForOrder_append, hT, transactionsForOrder_gen_self]
      rfl
    · rw [if_neg hid] at hL
      have hne : o1.id ≠ o.id := by simpa using hid
      by_cases hE : (transactionsForOrder txs o1.id).isEmpty = true
      · rw [syncLoop_cons_derive txs o1 rest hE]
        refine ih (txs ++ generateTransactionFromOrder o1) hL ?_
        rw [transactionsForOrder_append, hT, transactionsForOrder_gen_other o1 o.id hne]
        rfl
      · have hE' : (transactionsForOrder txs o1.id).isEmpty = false := by
          revert hE; cases (transactionsForOrder txs o1.id).isEmpty <;> simp
        rw [syncLoop_cons_skip txs o1 rest hE']
        exact ih txs hL hT

theorem syncOrders_fst (f : DateQuery) (s : Store) :
    (syncOrdersToTransactions f s).1 =
      { s with transactions :=
          (syncLoop s.transactions (completedOrdersIn f s.orders)).1 } := by
  rw [syncOrdersToTransactions]

theorem syncOrders_idempotent (f : DateQuery) (s : Store) :
    (syncOrdersToTransactions f ((syncOrdersToTransactions f s).1)).1 =
      (syncOrdersToTransactions f s).1 := by
  rw [syncOrders_fst f s,
      syncOrders_fst f { s with transactions :=
        (syncLoop s.transactions (completedOrdersIn f s.orders)).1 }]
  show { s with transactions :=
      (syncLoop (syncLoop s.transactions (completedOrdersIn f s.orders)).1
        (completedOrdersIn f s.orders)).1 } =
    { s with transactions := (syncLoop s.transactions (completedOrdersIn f s.orders)).1 }
  rw [syncLoop_skip_all (completedOrdersIn f s.orders)
      (syncLoop s.transactions (completedOrdersIn f s.orders)).1
      (fun o' ho' => syncLoop_mem_nonempty (completedOrdersIn f s.orders) s.transactions o' ho')]

/-- Claim C5: the bulk sync is idempotent per order.  For a completed in-range
order with a unique id and no pre-existing transactions for it, one bulk sync
run derives exactly its three transactions (the guard queries existing
transactions by orderId first), and a second run of the bulk sync is a no-op:
the store after two runs equals the store after one, so the order is left with
exactly 3 transactions. -/
theorem c5_bulk_sync_idempotent (f : DateQuery) (s : Store) (o : Order)
    (hone : (completedOrdersIn f s.orders).filter (fun o' => o'.id == o.id) = [o])
    (hnone : transactionsForOrder s.transactions o.id = []) :
    transactionsForOrder ((syncOrdersToTransactions f s).1.transactions) o.id =
      generateTransactionFromOrder o ∧
    (transactionsForOrder ((syncOrdersToTransactions f s).1.transactions) o.id).length = 3 ∧
    (syncOrdersToTransactions f ((syncOrdersToTransactions f s).1)).1 =
      (syncOrdersToTransactions f s).1 ∧
    (transactionsForOrder
      ((syncOrdersToTransactions f ((syncOrdersToTransactions f s).1)).1.transactions)
      o.id).length = 3 := by
  have hgen : transactionsForOrder ((syncOrdersToTransactions f s).1.transactions) o.id =
      generateTransactionFromOrder o := by
    rw [syncOrders_fst f s]
    exact syncLoop_count_three o (completedOrdersIn f s.orders) s.transactions hone hnone
  refine ⟨hgen, by rw [hgen]; rfl, syncOrders_idempotent f s, ?_⟩
  rw [syncOrders_idempotent f s, hgen]
  rfl

/-- Witness for C5 at a concrete store with one completed order and no
transactions. -/
theorem c5_bulk_sync_idempotent_witness :
    (completedOrdersIn noDateQuery c5Store.orders).filter
      (fun o' => o'.id == c5Order.id) = [c5Order] ∧
    transactionsForOrder c5Store.transactions c5Order.id = [] ∧
    (transactionsForOrder
      ((syncOrdersToTransactions noDateQuery c5Store).1.transactions) c5Order.id).length = 3 ∧
    (syncOrdersToTransactions noDateQuery
      ((syncOrdersToTransactions noDateQuery c5Store).1)).1 =
      (syncOrdersToTransactions noDateQuery c5Store).1 := by
  have hone : (completedOrdersIn noDateQuery c5Store.orders).filter
      (fun o' => o'.id == c5Order.id) = [c5Order] := by
    simp [completedOrdersIn, inDateQuery, noDateQuery, c5Store, c5Order]
  have hnone : transactionsForOrder c5Store.transactions c5Order.id = [] := rfl
  have h := c5_bulk_sync_idempotent noDateQuery c5Store c5Order hone hnone
  exact ⟨hone, hnone, h.2.1, h.2.2.1⟩

theorem rat_if_beq_zero (x : Rat) : (if x == 0 then (0 : Rat) else x) = x := by
  by_cases h : x = 0 <;> simp [h]

theorem beq_outflow_inflow_false : ("outflow" == "inflow") = false := by decide

theorem beq_inflow_outflow_false : ("inflow" == "outflow") = false := by decide

theorem beq_ship_sales_false : ("shipping_costs" == "product_sales") = false := by decide

theorem beq_sales_ship_false : ("product_sales" == "shipping_costs") = false := by decide

theorem aggSumAmounts_eq (txs : List CashFlowTransaction)
    (cond : CashFlowTransaction → Bool) :
    aggSumAmounts txs cond = ((txs.filter cond).map (fun t => t.amount)).sum := by
  unfold aggSumAmounts
  cases h : txs.filter cond with
  | nil => simp
  | cons a l =>
    simp only
    exact rat_if_beq_zero _

/-- Claim C6: over any window and positive period, the dashboard reports the
windowed inflow and outflow sums, their difference as netCashFlow, the all-time
balance as currentBalance, cashBurnRate as the windowed outflow total divided
by the period, and runway as the floor of currentBalance over cashBurnRate when
the burn rate is positive and the null sentinel otherwise. -/
theorem c6_dashboard (txs : List CashFlowTransaction) (startDate endDate : Int)
    (period : Int) (hp : 0 < period) :
    (calculateDashboardData txs startDate endDate period).totalInflows =
      ((txs.filter (fun t => t.type == "inflow" && inWindow startDate endDate t)).map
        (fun t => t.amount)).sum ∧
    (calculateDashboardData txs startDate endDate period).totalOutflows =
      ((txs.filter (fun t => t.type == "outflow" && inWindow startDate endDate t)).map
        (fun t => t.amount)).sum ∧
    (calculateDashboardData txs startDate endDate period).netCashFlow =
      (calculateDashboardData txs startDate endDate period).totalInflows -
        (calculateDashboardData txs startDate endDate period).totalOutflows ∧
    (calculateDashboardData txs startDate endDate period).currentBalance =
      ((txs.filter (fun t => t.type == "inflow")).map (fun t => t.amount)).sum -
        ((txs.filter (fun t => t.type == "outflow")).map (fun t => t.amount)).sum ∧
    (calculateDashboardData txs startDate endDate period).cashBurnRate =
      (calculateDashboardData txs startDate endDate period).totalOutflows / (period : Rat) ∧
    (calculateDashboardData txs startDate endDate period).runway =
      (if 0 < (calculateDashboardData txs startDate endDate period).cashBurnRate
       then some ⌊(calculateDashboardData txs startDate endDate period).currentBalance /
                  (calculateDashboardData txs startDate endDate period).cashBurnRate⌋
       else none) := by
  simp [calculateDashboardData, aggSumAmounts_eq]

/-- Witness for C6: windowed inflows [100, 50] and outflow [30] with all-time
inflow 500 and outflow 200 over a 30-day period give the claimed dashboard. -/
theorem c6_dashboard_witness :
    (0 : Int) < 30 ∧
    (calculateDashboardData c6Txs 0 10 30).totalInflows = 150 ∧
    (calculateDashboardData c6Txs 0 10 30).totalOutflows = 30 ∧
    (calculateDashboardData c6Txs 0 10 30).netCashFlow = 120 ∧
    (calculateDashboardData c6Txs 0 10 30).currentBalance = 300 ∧
    (calculateDashboardData c6Txs 0 10 30).cashBurnRate = 1 ∧
    (calculateDashboardData c6Txs 0 10 30).runway = some 300 := by
  have h := c6_dashboard c6Txs 0 10 30 (by decide)
  have hin : (calculateDashboardData c6Txs 0 10 30).totalInflows = 150 := by
    rw [h.1]
    norm_num [c6Txs, inWindow, List.filter, beq_outflow_inflow_false]
  have hout : (calculateDashboardData c6Txs 0 10 30).totalOutflows = 30 := by
    rw [h.2.1]
    norm_num [c6Txs, inWindow, List.filter, beq_inflow_outflow_false]
  have hnet : (calculateDashboardData c6Txs 0 10 30).netCashFlow = 120 := by
    rw [h.2.2.1, hin, hout]; norm_num
  have hbal : (calculateDashboardData c6Txs 0 10 30).currentBalance = 300 := by
    rw [h.2.2.2.1]
    norm_num [c6Txs, List.filter, beq_outflow_inflow_false, beq_inflow_outflow_false]
  have hburn : (calculateDashboardData c6Txs 0 10 30).cashBurnRate = 1 := by
    rw [h.2.2.2.2.1, hout]; norm_num
  have hrun : (calculateDashboardData c6Txs 0 10 30).runway = some 300 := by
    rw [h.2.2.2.2.2, hburn, hbal]; norm_num
  exact ⟨by decide, hin, hout, hnet, hbal, hburn, hrun⟩

theorem categoriesOf_aux_mem (x : String) :
    ∀ (l : List CashFlowTransaction) (acc : List String),
      x ∈ l.foldl (fun acc t =>
        if acc.contains t.category then acc else acc ++ [t.category]) acc ↔
      x ∈ acc ∨ x ∈ l.map (fun t => t.category) := by
  intro l
  induction l with
  | nil => intro acc; simp
  | cons t rest ih =>
    intro acc
    rw [List.foldl_cons, ih, List.map_cons]
    by_cases hc : acc.contains t.category = true
    · rw [if_pos hc]
      have hmem : t.category ∈ acc := by simpa using hc
      constructor
      · rintro (h | h)
        · exact Or.inl h
        · exact Or.inr (List.mem_cons_of_mem _ h)
      · rintro (h | h)
        · exact Or.inl h
        · rcases List.mem_cons.mp h with rfl | h2
          · exact Or.inl hmem
          · exact Or.inr h2
    · rw [if_neg hc]
      simp only [List.mem_append, List.mem_singleton, List.mem_cons]
      tauto

theorem categoriesOf_mem (x : String) (txs : List CashFlowTransaction) :
    x ∈ categoriesOf txs ↔ x ∈ txs.map (fun t => t.category) := by
  rw [categoriesOf, categoriesOf_aux_mem]
  simp

theorem categoryInflowSum_pos_mem (txs : List CashFlowTransaction) (c : String)
    (h : 0 < categoryInflowSum txs c) : c ∈ txs.map (fun t => t.category) := by
  by_contra hc
  have hnil : txs.filter (fun t => t.category == c && t.type == "inflow") = [] := by
    rw [List.filter_eq_nil]
    intro t ht hpt
    have h1 := (Bool.and_eq_true_iff.mp hpt).1
    exact hc (List.mem_map.mpr ⟨t, ht, beq_iff_eq.mp h1⟩)
  rw [categoryInflowSum, hnil] at h
  simp at h

theorem categoryOutflowSum_pos_mem (txs : List CashFlowTransaction) (c : String)
    (h : 0 < categoryOutflowSum txs c) : c ∈ txs.map (fun t => t.category) := by
  by_contra hc
  have hnil : txs.filter (fun t => t.category == c && t.type == "outflow") = [] := by
    rw [List.filter_eq_nil]
    intro t ht hpt
    have h1 := (Bool.and_eq_true_iff.mp hpt).1
    exact hc (List.mem_map.mpr ⟨t, ht, beq_iff_eq.mp h1⟩)
  rw [categoryOutflowSum, hnil] at h
  simp at h

theorem mem_map_category_of_rows (cats : List String) (p : String → Bool)
    (mk : String → CategoryRow) (hmk : ∀ c, (mk c).category = c) (x : String) :
    x ∈ ((cats.filter p).map mk).map (fun r => r.category) ↔ x ∈ cats.filter p := by
  rw [List.map_map]
  have hfun : ((fun r : CategoryRow => r.category) ∘ mk) = fun c => c := by
    funext c; exact hmk c
  rw [hfun]
  simp

/-- Claim C9: byCategory lists a category in a direction exactly when its
summed in-window amount in that direction is positive; each listed row carries
that category's per-direction sum and its transaction count, and the reported
totals are the sums of the listed amounts per direction. -/
theorem c9_by_category (txs : List CashFlowTransaction) (startDate endDate : Int)
    (c : String) :
    (c ∈ (getCashFlowByCategory txs startDate endDate).inflows.map (fun r => r.category) ↔
      0 < categoryInflowSum (txs.filter (inWindow startDate endDate)) c) ∧
    (c ∈ (getCashFlowByCategory txs startDate endDate).outflows.map (fun r => r.category) ↔
      0 < categoryOutflowSum (txs.filter (inWindow startDate endDate)) c) ∧
    (∀ r ∈ (getCashFlowByCategory txs startDate endDate).inflows,
      r.amount = categoryInflowSum (txs.filter (inWindow startDate endDate)) r.category ∧
      r.count = categoryCount (txs.filter (inWindow startDate endDate)) r.category) ∧
    (∀ r ∈ (getCashFlowByCategory txs startDate endDate).outflows,
      r.amount = categoryOutflowSum (txs.filter (inWindow startDate endDate)) r.category ∧
      r.count = categoryCount (txs.filter (inWindow startDate endDate)) r.category) ∧
    (getCashFlowByCategory txs startDate endDate).totalInflowAmount =
      ((getCashFlowByCategory txs startDate endDate).inflows.map (fun r => r.amount)).sum ∧
    (getCashFlowByCategory txs startDate endDate).totalOutflowAmount =
      ((getCashFlowByCategory txs startDate endDate).outflows.map (fun r => r.amount)).sum := by
  refine ⟨?_, ?_, ?_, ?_, rfl, rfl⟩
  · simp only [getCashFlowByCategory]
    rw [mem_map_category_of_rows _ _ _ (fun c' => rfl), List.mem_filter]
    constructor
    · rintro ⟨_, hp⟩
      exact of_decide_eq_true hp
    · intro hpos
      refine ⟨?_, decide_eq_true hpos⟩
      exact (categoriesOf_mem c _).mpr (categoryInflowSum_pos_mem _ c hpos)
  · simp only [getCashFlowByCategory]
    rw [mem_map_category_of_rows _ _ _ (fun c' => rfl), List.mem_filter]
    constructor
    · rintro ⟨_, hp⟩
      exact of_decide_eq_true hp
    · intro hpos
      refine ⟨?_, decide_eq_true hpos⟩
      exact (categoriesOf_mem c _).mpr (categoryOutflowSum_pos_mem _ c hpos)
  · simp only [getCashFlowByCategory]
    intro r hr
    rcases List.mem_map.mp hr with ⟨c', _, rfl⟩
    exact ⟨rfl, rfl⟩
  · simp only [getCashFlowByCategory]
    intro r hr
    rcases List.mem_map.mp hr with ⟨c', _, rfl⟩
    exact ⟨rfl, rfl⟩

/-- Witness for C9: product_sales appears in the inflow list (its inflow sum is
positive) and shipping_costs does not. -/
theorem c9_by_category_witness :
    ("product_sales" ∈ (getCashFlowByCategory c9Txs 0 10).inflows.map
      (fun r => r.category)) ∧
    ("shipping_costs" ∉ (getCashFlowByCategory c9Txs 0 10).inflows.map
      (fun r => r.category)) := by
  have h1 := (c9_by_category c9Txs 0 10 "product_sales").1
  have h2 := (c9_by_category c9Txs 0 10 "shipping_costs").1
  constructor
  · refine h1.mpr ?_
    norm_num [categoryInflowSum, c9Txs, inWindow, List.filter,
              beq_ship_sales_false, beq_inflow_outflow_false]
  · intro hmem
    have hpos := h2.mp hmem
    norm_num [categoryInflowSum, c9Txs, inWindow, List.filter,
              beq_sales_ship_false, beq_outflow_inflow_false] at hpos

theorem forecastRows_get (avgIn avgOut : Rat) (now : Int) :
    ∀ (r k i : Nat) (bal : Rat), k < r →
      (forecastRows avgIn avgOut now bal i r)[k]? =
        some { date := now + ((i : Int) + (k : Int)),
               projectedBalance := roundCents (bal + ((k : Rat) + 1) * (avgIn - avgOut)),
               projectedInflow := roundCents avgIn,
               projectedOutflow := roundCents avgOut,
               netProjectedFlow := roundCents (avgIn - avgOut) } := by
  intro r
  induction r with
  | zero => intro k i bal hk; exact absurd hk (Nat.not_lt_zero k)
  | succ r ih =>
    intro k i bal hk
    rw [forecastRows]
    cases k with
    | zero =>
      rw [List.getElem?_cons_zero, Option.some.injEq, ForecastRow.mk.injEq]
      refine ⟨by push_cast; ring, congrArg roundCents (by push_cast; ring), rfl, rfl, rfl⟩
    | succ k =>
      rw [List.getElem?_cons_succ, ih k (i + 1) (bal + (avgIn - avgOut))
        (Nat.lt_of_succ_lt_succ hk), Option.some.injEq, ForecastRow.mk.injEq]
      refine ⟨by push_cast; ring, congrArg roundCents (by push_cast; ring), rfl, rfl, rfl⟩

/-- Claim C7 (amended): the forecast emits one record per day; the i-th record
(0-based) projects the balance start + (i+1)·(avgDailyInflow − avgDailyOutflow)
where start is the all-time current balance and the averages are the last
30 days' totals over 30; every monetary field is rounded to two decimals by
Math.round on value·100, which rounds halves toward positive infinity (not
away from zero). -/
theorem c7_forecast_rows (txs : List CashFlowTransaction) (now : Int)
    (forecastDays i : Nat) (hi : i < forecastDays) :
    ((getCashFlowForecast txs now forecastDays).forecast)[i]? =
      some { date := now + (1 + (i : Int)),
             projectedBalance := roundCents (startingBalanceOf txs now +
               ((i : Rat) + 1) * (avgDailyInflowOf txs now - avgDailyOutflowOf txs now)),
             projectedInflow := roundCents (avgDailyInflowOf txs now),
             projectedOutflow := roundCents (avgDailyOutflowOf txs now),
             netProjectedFlow := roundCents (avgDailyInflowOf txs now -
               avgDailyOutflowOf txs now) } := by
  have h := forecastRows_get (avgDailyInflowOf txs now) (avgDailyOutflowOf txs now) now
    forecastDays i 1 (startingBalanceOf txs now) hi
  simp only [avgDailyInflowOf, avgDailyOutflowOf, startingBalanceOf] at h
  simp only [getCashFlowForecast, avgDailyInflowOf, avgDailyOutflowOf, startingBalanceOf]
  rw [h, Option.some.injEq, ForecastRow.mk.injEq]
  refine ⟨by push_cast; ring, rfl, rfl, rfl, rfl⟩

/-- Counterexample to C7 as stated: Math.round rounds halves toward positive
infinity, not away from zero.  With an all-time balance of −100.005 and zero
30-day averages, the code's first projected balance is −100, while rounding
half away from zero would give −100.01. -/
theorem c7_counterexample :
    startingBalanceOf c7CtrTxs 0 = -100.005 ∧
    avgDailyInflowOf c7CtrTxs 0 = 0 ∧
    avgDailyOutflowOf c7CtrTxs 0 = 0 ∧
    (getCashFlowForecast c7CtrTxs 0 1).forecast.map (fun r => r.projectedBalance) =
      [-100] ∧
    roundCentsAway (-100.005) = -100.01 ∧
    ((-100 : Rat) ≠ -100.01) := by
  have hbal : startingBalanceOf c7CtrTxs 0 = -100.005 := by
    norm_num [startingBalanceOf, calculateDashboardData, aggSumAmounts_eq,
              inWindow, c7CtrTxs, List.filter, beq_outflow_inflow_false]
  have hin : avgDailyInflowOf c7CtrTxs 0 = 0 := by
    norm_num [avgDailyInflowOf, calculateDashboardData, aggSumAmounts_eq,
              inWindow, c7CtrTxs, List.filter, beq_outflow_inflow_false]
  have hout : avgDailyOutflowOf c7CtrTxs 0 = 0 := by
    norm_num [avgDailyOutflowOf, calculateDashboardData, aggSumAmounts_eq,
              inWindow, c7CtrTxs, List.filter, beq_outflow_inflow_false]
  refine ⟨hbal, hin, hout, ?_, ?_, by norm_num⟩
  · have hrows : (getCashFlowForecast c7CtrTxs 0 1).forecast =
        forecastRows (avgDailyInflowOf c7CtrTxs 0) (avgDailyOutflowOf c7CtrTxs 0) 0
          (startingBalanceOf c7CtrTxs 0) 1 1 := rfl
    rw [hrows, hbal, hin, hout]
    norm_num [forecastRows, roundCents, jsRound]
  · norm_num [roundCentsAway, roundHalfAwayFromZero]

/-- Witness for C7 (amended): with 30-day averages 10 in / 4 out and starting
balance 100, day 1 projects balance 106 and day 2 projects 112. -/
theorem c7_forecast_rows_witness :
    0 < 2 ∧
    avgDailyInflowOf c7Txs 0 = 10 ∧
    avgDailyOutflowOf c7Txs 0 = 4 ∧
    startingBalanceOf c7Txs 0 = 100 ∧
    ((getCashFlowForecast c7Txs 0 2).forecast)[0]? =
      some { date := 1, projectedBalance := 106, projectedInflow := 10,
             projectedOutflow := 4, netProjectedFlow := 6 } ∧
    ((getCashFlowForecast c7Txs 0 2).forecast)[1]? =
      some { date := 2, projectedBalance := 112, projectedInflow := 10,
             projectedOutflow := 4, netProjectedFlow := 6 } := by
  have havgIn : avgDailyInflowOf c7Txs 0 = 10 := by
    norm_num [avgDailyInflowOf, calculateDashboardData, aggSumAmounts_eq,
              inWindow, c7Txs, List.filter, beq_outflow_inflow_false]
  have havgOut : avgDailyOutflowOf c7Txs 0 = 4 := by
    norm_num [avgDailyOutflowOf, calculateDashboardData, aggSumAmounts_eq,
              inWindow, c7Txs, List.filter, beq_inflow_outflow_false]
  have hbal : startingBalanceOf c7Txs 0 = 100 := by
    norm_num [startingBalanceOf, calculateDashboardData, aggSumAmounts_eq,
              inWindow, c7Txs, List.filter, beq_inflow_outflow_false,
              beq_outflow_inflow_false]
  have h0 := c7_forecast_rows c7Txs 0 2 0 (by decide)
  have h1 := c7_forecast_rows c7Txs 0 2 1 (by decide)
  rw [havgIn, havgOut, hbal] at h0 h1
  refine ⟨by decide, havgIn, havgOut, hbal, ?_, ?_⟩
  · rw [h0, Option.some.injEq, ForecastRow.mk.injEq]
    norm_num [roundCents, jsRound]
  · rw [h1, Option.some.injEq, ForecastRow.mk.injEq]
    norm_num [roundCents, jsRound]

end Shop
